import Mathlib

/-!
Shallow embedding of `backend/main.py` (FastAPI microservice for the
Kubernetes webstack demo) and proofs about its observable contract.

The service keeps one relational table
`settings(id SERIAL PRIMARY KEY, name VARCHAR(255) NOT NULL)` behind an
asyncpg connection pool, and exposes three GET routes:
`/api/user`, `/api/id`, `/api/health`.

Modelling conventions:
* the database is a `DB` value: a table-exists flag, the list of rows in
  insertion order, and the next value of the `id` SERIAL sequence;
* run-time failures of the driver (unreachable host, dropped connection)
  are oracles of type `Except String Unit`: `.ok ()` means the
  corresponding awaited call succeeds, `.error msg` means it raises an
  exception whose `str(e)` is `msg`;
* Python exceptions propagate as `Except.error`; FastAPI's
  `HTTPException` becomes an `HTTPResult.httpError status detail`;
* the `async with pool.acquire() as conn:` block is `withAcquire`, which
  records the acquire/release events the pool sees on each control path.
-/

namespace Webstack

/-- One row of the `settings` table:
`id SERIAL PRIMARY KEY, name VARCHAR(255) NOT NULL`. -/
structure Row where
  id : Nat
  name : String
deriving DecidableEq, Repr

/-- State of the relational database as far as this service observes it:
whether the `settings` table exists, its rows in insertion order, and the
next value the SERIAL sequence will hand out. -/
structure DB where
  settingsExists : Bool
  settings : List Row
  nextId : Nat
deriving DecidableEq, Repr

/-- A database that a fresh deployment starts from: no table, no rows. -/
def emptyDB : DB := { settingsExists := false, settings := [], nextId := 1 }

/-- Effect of `CREATE TABLE IF NOT EXISTS settings (...)`. -/
def createTableIfNotExists (db : DB) : DB :=
  if db.settingsExists then db
  else { settingsExists := true, settings := [], nextId := 1 }

/-- Result of `SELECT COUNT(*) FROM settings`. -/
def countSettings (db : DB) : Nat := db.settings.length

/-- Effect of `INSERT INTO settings (name) VALUES ($1)`: the SERIAL
sequence supplies the id and advances. -/
def insertSetting (db : DB) (name : String) : DB :=
  { db with settings := db.settings ++ [{ id := db.nextId, name := name }],
            nextId := db.nextId + 1 }

/-- The schema part of `init_db` (the body of its
`async with pool.acquire()` block): create the table if absent, then
insert the default row "Student" if the table is empty. -/
def init_schema (db : DB) : DB :=
  let db1 := createTableIfNotExists db
  if countSettings db1 = 0 then insertSetting db1 "Student" else db1

/-- The asyncpg connection pool handle as configured by `init_db`. -/
structure Pool where
  min_size : Nat
  max_size : Nat
  closed : Bool
deriving DecidableEq, Repr

/-- Configuration read from the environment: `os.getenv` yields `none`
when a variable is unset (no defaults are applied in code). -/
structure Config where
  DB_HOST : Option String
  DB_PORT : Option String
  DB_NAME : Option String
  DB_USER : Option String
  DB_PASSWORD : Option String
deriving DecidableEq, Repr

/-- Value of a list of decimal digit characters, `none` when some
character is not a digit. -/
def digitsToNat (cs : List Char) : Option Nat :=
  cs.foldl (fun acc c =>
    match acc with
    | none => none
    | some n => if c.isDigit then some (n * 10 + (c.toNat - 48)) else none)
    (some 0)

/-- Python `int(x)` applied to the value of `os.getenv("DB_PORT")`:
`int(None)` raises `TypeError`; a nonempty string of decimal digits
converts; any other string raises `ValueError` (signs and surrounding
whitespace, which `int` also accepts, are omitted: port values are plain
digit strings). -/
def pyInt (s : Option String) : Except String Int :=
  match s with
  | none => .error "TypeError: int() argument must be a string, a bytes-like object or a real number, not NoneType"
  | some v =>
    match digitsToNat v.data with
    | some n => if v.data = [] then
        .error ("ValueError: invalid literal for int() with base 10: " ++ v)
      else .ok (n : Int)
    | none => .error ("ValueError: invalid literal for int() with base 10: " ++ v)

/-- Call `asyncpg.create_pool(host=..., port=int(DB_PORT), ...,
min_size=1, max_size=10)`. Evaluating `int(DB_PORT)` may raise; reaching
the database may fail, which the `connect` oracle decides. -/
def create_pool (cfg : Config) (connect : Except String Unit) : Except String Pool :=
  match pyInt cfg.DB_PORT with
  | .error e => .error e
  | .ok _ =>
    match connect with
    | .error e => .error e
    | .ok _ => .ok { min_size := 1, max_size := 10, closed := false }

/-- Function `init_db`: create the pool, then run the schema statements through an
acquired connection. `schemaExec` decides whether the awaited schema
statements raise a driver error; any exception propagates to the caller
(there is no try/except in `init_db`). -/
def init_db (cfg : Config) (connect schemaExec : Except String Unit) (db : DB) :
    Except String (Pool × DB) :=
  match create_pool cfg connect with
  | .error e => .error e
  | .ok p =>
    match schemaExec with
    | .error e => .error e
    | .ok _ => .ok (p, init_schema db)

/-- Phase of the application process after the startup half of the
`lifespan` context manager ran. -/
inductive AppPhase where
  | serving (pool : Pool) (db : DB)
  | aborted (msg : String)
deriving DecidableEq, Repr

/-- The startup half of `lifespan`: `await init_db()` and only then
`yield` to serve traffic. An exception from `init_db` propagates and the
application never starts serving. -/
def lifespan_startup (cfg : Config) (connect schemaExec : Except String Unit)
    (db : DB) : AppPhase :=
  match init_db cfg connect schemaExec db with
  | .ok pdb => .serving pdb.1 pdb.2
  | .error e => .aborted e

/-- The call `pool.close()` as a method call on the global handle: calling it on
`None` would raise `AttributeError`, on a pool it closes the pool. -/
def poolClose (pool : Option Pool) : Except String Pool :=
  match pool with
  | none => .error "AttributeError: NoneType object has no attribute close"
  | some p => .ok { p with closed := true }

/-- Function `close_db`: `if pool: await pool.close()`. The truthiness guard means
the close call only happens when the global handle was ever assigned. -/
def close_db (pool : Option Pool) : Except String (Option Pool) :=
  if pool.isSome then
    match poolClose pool with
    | .error e => .error e
    | .ok p => .ok (some p)
  else .ok pool

/-- Outcome of a request handler: a 200 body, or an `HTTPException`
carrying a status code and a detail string. -/
inductive HTTPResult (α : Type) where
  | ok : α → HTTPResult α
  | httpError (status : Nat) (detail : String) : HTTPResult α
deriving DecidableEq, Repr

/-- Map over the 200 body of an `HTTPResult`. -/
def HTTPResult.map {α β : Type} (f : α → β) : HTTPResult α → HTTPResult β
  | .ok a => .ok (f a)
  | .httpError s d => .httpError s d

/-- An event the connection pool observes. -/
inductive PoolEvent where
  | acquire
  | release
deriving DecidableEq, Repr

/-- Semantics of `async with pool.acquire() as conn: body`. If the
acquisition itself raises, no connection was handed out and the body is
skipped. Once acquired, the connection is released on every exit path,
whether the body returns or raises, and the body's outcome propagates. -/
def withAcquire {α : Type} (acq : Except String Unit) (body : Except String α) :
    Except String α × List PoolEvent :=
  match acq with
  | .error e => (.error e, [])
  | .ok _ => (body, [PoolEvent.acquire, PoolEvent.release])

/-- The query `conn.fetchrow("SELECT name FROM settings LIMIT 1")`: raises if the
driver fails (`fetch` oracle) or if the table does not exist; otherwise
returns the first row, if any. -/
def fetchrowSettings (db : DB) (fetch : Except String Unit) :
    Except String (Option Row) :=
  match fetch with
  | .error e => .error e
  | .ok _ =>
    if db.settingsExists then .ok db.settings.head?
    else .error "UndefinedTableError: relation settings does not exist"

/-- Body of the `/api/user` handler inside its acquire block: fetch the
row; `raise HTTPException(404, "No user found")` when it is `None`, else
return the name. An unhandled driver exception stays an `Except.error`. -/
def get_user_body (db : DB) (fetch : Except String Unit) :
    Except String (HTTPResult String) :=
  match fetchrowSettings db fetch with
  | .error e => .error e
  | .ok none => .ok (.httpError 404 "No user found")
  | .ok (some row) => .ok (.ok row.name)

/-- Handler of `GET /api/user`. Returns the response, the resulting database state,
and the pool events of the request. An exception that is not an
`HTTPException` escapes the handler and FastAPI answers 500. -/
def get_user (db : DB) (acq fetch : Except String Unit) :
    HTTPResult String × DB × List PoolEvent :=
  let r := withAcquire acq (get_user_body db fetch)
  match r.1 with
  | .error _ => (.httpError 500 "Internal Server Error", db, r.2)
  | .ok res => (res, db, r.2)

/-- Handler of `GET /api/id`: `return` an object holding
`socket.gethostname()`. The hostname is
a constant of the process lifetime. -/
def get_container_id (hostname : String) : HTTPResult String :=
  .ok hostname

/-- Handler of `GET /api/health`: try to acquire a connection and
`await conn.fetchval("SELECT 1")` (the `probe` oracle); on success answer
healthy/connected, on any exception
`raise HTTPException(503, "Unhealthy: " + str(e))`. -/
def health_check (db : DB) (acq probe : Except String Unit) :
    HTTPResult (String × String) × DB × List PoolEvent :=
  let r := withAcquire acq probe
  match r.1 with
  | .ok _ => (.ok ("healthy", "connected"), db, r.2)
  | .error e => (.httpError 503 ("Unhealthy: " ++ e), db, r.2)

/-- Request model `UserUpdate` (Pydantic): defined in the source but not
used by any registered route. -/
structure UserUpdate where
  name : String
deriving DecidableEq, Repr

/-- The routes the application registers: exactly the three `@app.get`
endpoints. No POST/PUT route (and in particular none consuming
`UserUpdate`) exists. -/
inductive Route where
  | user
  | id
  | health
deriving DecidableEq, Repr

/-- Dispatch of one request to the registered handler. Responses are
rendered as JSON objects (association lists of string fields). -/
def handle (req : Route) (hostname : String) (db : DB)
    (acq q : Except String Unit) :
    HTTPResult (List (String × String)) × DB × List PoolEvent :=
  match req with
  | .user =>
    let r := get_user db acq q
    (r.1.map (fun n => [("name", n)]), r.2.1, r.2.2)
  | .id =>
    ((get_container_id hostname).map (fun i => [("id", i)]), db, [])
  | .health =>
    let r := health_check db acq q
    (r.1.map (fun s => [("status", s.1), ("database", s.2)]), r.2.1, r.2.2)

/-- A fully populated environment for a concrete deployment. -/
def demoConfig : Config :=
  { DB_HOST := some "db", DB_PORT := some "5432", DB_NAME := some "app",
    DB_USER := some "u", DB_PASSWORD := some "p" }

/-- The same environment with `DB_PORT` unset. -/
def demoConfigNoPort : Config := { demoConfig with DB_PORT := none }

/-- The pool handle `init_db` produces on success. -/
def demoPool : Pool := { min_size := 1, max_size := 10, closed := false }

end Webstack

namespace Webstack

/-! ## Helper lemmas -/

theorem createTable_settingsExists (db : DB) :
    (createTableIfNotExists db).settingsExists = true := by
  unfold createTableIfNotExists
  cases hb : db.settingsExists <;> simp [hb]

theorem init_schema_settingsExists (db : DB) :
    (init_schema db).settingsExists = true := by
  unfold init_schema
  by_cases hc : countSettings (createTableIfNotExists db) = 0 <;>
    simp [hc, insertSetting, createTable_settingsExists db]

theorem init_schema_nonempty (db : DB) :
    1 ≤ (init_schema db).settings.length := by
  unfold init_schema
  by_cases hc : countSettings (createTableIfNotExists db) = 0
  · simp [hc, insertSetting]
  · have hne : (createTableIfNotExists db).settings.length ≠ 0 := hc
    simp [hc]
    omega

theorem init_schema_fixed (d : DB) (hex : d.settingsExists = true)
    (hne : d.settings.length ≠ 0) : init_schema d = d := by
  unfold init_schema createTableIfNotExists countSettings
  simp [hex, hne]

theorem get_user_db_unchanged (db : DB) (acq fetch : Except String Unit) :
    (get_user db acq fetch).2.1 = db := by
  cases hr : (withAcquire acq (get_user_body db fetch)).1 <;> simp [get_user, hr]

theorem health_check_db_unchanged (db : DB) (acq probe : Except String Unit) :
    (health_check db acq probe).2.1 = db := by
  cases hr : (withAcquire acq probe).1 <;> simp [health_check, hr]

theorem handle_db_unchanged (req : Route) (hostname : String) (db : DB)
    (acq q : Except String Unit) : (handle req hostname db acq q).2.1 = db := by
  cases req with
  | user => simp [handle, get_user_db_unchanged]
  | id => rfl
  | health => simp [handle, health_check_db_unchanged]

theorem init_db_ok_shape (cfg : Config) (connect schemaExec : Except String Unit)
    (db : DB) (p : Pool) (db2 : DB)
    (h : init_db cfg connect schemaExec db = .ok (p, db2)) :
    p = { min_size := 1, max_size := 10, closed := false } ∧ db2 = init_schema db := by
  unfold init_db create_pool at h
  cases hport : pyInt cfg.DB_PORT with
  | error e => rw [hport] at h; exact absurd h (by simp)
  | ok n =>
    rw [hport] at h
    cases connect with
    | error e => exact absurd h (by simp)
    | ok u =>
      cases schemaExec with
      | error e => exact absurd h (by simp)
      | ok v =>
        simp at h
        exact ⟨h.1.symm, h.2.symm⟩

theorem lifespan_serving_iff (cfg : Config) (connect schemaExec : Except String Unit)
    (db : DB) (p : Pool) (db2 : DB) :
    lifespan_startup cfg connect schemaExec db = .serving p db2 ↔
      init_db cfg connect schemaExec db = .ok (p, db2) := by
  unfold lifespan_startup
  cases h : init_db cfg connect schemaExec db with
  | ok pdb => simp [Prod.ext_iff]
  | error e => simp

/-! ## Properties -/

/-- C1: for a request to `GET /api/user` whose query executes, if the
`settings` table contains at least one row the handler returns the 200
body holding that row's name, and if no row exists it fails with
HTTP 404. -/
theorem get_user_row_or_404 (db : DB) (h : db.settingsExists = true) :
    (∀ row rest, db.settings = row :: rest →
      (get_user db (.ok ()) (.ok ())).1 = .ok row.name) ∧
    (db.settings = [] →
      (get_user db (.ok ()) (.ok ())).1 = .httpError 404 "No user found") := by
  constructor
  · intro row rest hrows
    simp [get_user, withAcquire, get_user_body, fetchrowSettings, h, hrows]
  · intro hrows
    simp [get_user, withAcquire, get_user_body, fetchrowSettings, h, hrows]

/-- Witness for C1 at concrete databases: one with a single row "Alice",
one with the table present but empty. -/
theorem get_user_row_or_404_witness :
    (get_user { settingsExists := true, settings := [{ id := 1, name := "Alice" }], nextId := 2 }
        (.ok ()) (.ok ())).1 = .ok "Alice" ∧
    (get_user { settingsExists := true, settings := [], nextId := 1 }
        (.ok ()) (.ok ())).1 = .httpError 404 "No user found" := by
  refine ⟨?_, ?_⟩
  · exact (get_user_row_or_404
      { settingsExists := true, settings := [{ id := 1, name := "Alice" }], nextId := 2 }
      rfl).1 { id := 1, name := "Alice" } [] rfl
  · exact (get_user_row_or_404
      { settingsExists := true, settings := [], nextId := 1 } rfl).2 rfl

/-- C2: `GET /api/health` answers 200 `("healthy", "connected")` exactly
when both acquiring a connection and running the probe query succeed;
any exception `e` during acquisition or execution yields HTTP 503 with
detail `"Unhealthy: " ++ e`; and these are the only two outcomes. -/
theorem health_check_two_outcomes (db : DB) (acq probe : Except String Unit) :
    (acq = .ok () → probe = .ok () →
      (health_check db acq probe).1 = .ok ("healthy", "connected")) ∧
    (∀ e, acq = .error e →
      (health_check db acq probe).1 = .httpError 503 ("Unhealthy: " ++ e)) ∧
    (∀ e, acq = .ok () → probe = .error e →
      (health_check db acq probe).1 = .httpError 503 ("Unhealthy: " ++ e)) ∧
    ((health_check db acq probe).1 = .ok ("healthy", "connected") ∨
      ∃ e, (health_check db acq probe).1 = .httpError 503 ("Unhealthy: " ++ e)) := by
  refine ⟨?_, ?_, ?_, ?_⟩
  · intro ha hp; simp [health_check, withAcquire, ha, hp]
  · intro e ha; simp [health_check, withAcquire, ha]
  · intro e ha hp; simp [health_check, withAcquire, ha, hp]
  · cases acq with
    | error e => exact Or.inr ⟨e, by simp [health_check, withAcquire]⟩
    | ok u =>
      cases probe with
      | error e => exact Or.inr ⟨e, by simp [health_check, withAcquire]⟩
      | ok v => exact Or.inl (by simp [health_check, withAcquire])

/-- Witness for C2: on a failing probe the health endpoint answers 503
with the failure message embedded in the detail. -/
theorem health_check_two_outcomes_witness :
    (health_check emptyDB (.ok ()) (.error "connection refused")).1 =
      .httpError 503 "Unhealthy: connection refused" :=
  (health_check_two_outcomes emptyDB (.ok ()) (.error "connection refused")).2.2.1
    "connection refused" rfl rfl

/-- C3: for a deployment whose database starts with no rows, after
startup initialization `GET /api/user` returns exactly one name, namely
"Student": the table holds exactly one row named "Student" and the
handler answers `.ok "Student"`. -/
theorem fresh_deployment_returns_student (db : DB) (h : db.settings = []) :
    (init_schema db).settings.map Row.name = ["Student"] ∧
    (get_user (init_schema db) (.ok ()) (.ok ())).1 = .ok "Student" := by
  have hrows : (createTableIfNotExists db).settings = [] := by
    unfold createTableIfNotExists
    cases hb : db.settingsExists <;> simp [hb, h]
  have hinit : (init_schema db).settings =
      [{ id := (createTableIfNotExists db).nextId, name := "Student" }] := by
    unfold init_schema
    simp [countSettings, hrows, insertSetting]
  have hinitex : (init_schema db).settingsExists = true := init_schema_settingsExists db
  constructor
  · simp [hinit]
  · simp [get_user, withAcquire, get_user_body, fetchrowSettings, hinitex, hinit]

/-- Witness for C3 at the canonical fresh database. -/
theorem fresh_deployment_returns_student_witness :
    (init_schema emptyDB).settings.map Row.name = ["Student"] ∧
    (get_user (init_schema emptyDB) (.ok ()) (.ok ())).1 = .ok "Student" :=
  fresh_deployment_returns_student emptyDB rfl

/-- C4: after startup initialization the `settings` table holds at least
one row; the default row "Student" is appended precisely when the table
was empty (and nothing changes otherwise); and every registered API
operation preserves the at-least-one-row property. -/
theorem init_at_least_one_row (db : DB) :
    1 ≤ (init_schema db).settings.length ∧
    (countSettings (createTableIfNotExists db) = 0 →
      (init_schema db).settings = (createTableIfNotExists db).settings ++
        [{ id := (createTableIfNotExists db).nextId, name := "Student" }]) ∧
    (countSettings (createTableIfNotExists db) ≠ 0 →
      init_schema db = createTableIfNotExists db) ∧
    (∀ req hostname db2 acq q, 1 ≤ (db2 : DB).settings.length →
      1 ≤ ((handle req hostname db2 acq q).2.1).settings.length) := by
  refine ⟨init_schema_nonempty db, ?_, ?_, ?_⟩
  · intro hc
    unfold init_schema
    simp [hc, insertSetting]
  · intro hc
    unfold init_schema
    simp [hc]
  · intro req hostname db2 acq q hlen
    rw [handle_db_unchanged req hostname db2 acq q]
    exact hlen

/-- Witness for C4: the empty database gains the default row, and a
request to each route leaves a one-row database at one row. -/
theorem init_at_least_one_row_witness :
    (init_schema emptyDB).settings = (createTableIfNotExists emptyDB).settings ++
      [{ id := (createTableIfNotExists emptyDB).nextId, name := "Student" }] ∧
    1 ≤ ((handle Route.user "pod-a" (init_schema emptyDB) (.ok ()) (.ok ())).2.1).settings.length := by
  constructor
  · exact (init_at_least_one_row emptyDB).2.1 rfl
  · exact (init_at_least_one_row emptyDB).2.2.2 Route.user "pod-a" (init_schema emptyDB)
      (.ok ()) (.ok ()) (init_at_least_one_row emptyDB).1

/-- C5: the startup schema sequence is idempotent: running it on any
database it has already been run on changes nothing, so a second run is
a no-op (and, being a total function, raises no error). -/
theorem init_schema_idempotent (db : DB) :
    init_schema (init_schema db) = init_schema db := by
  have h2 := init_schema_nonempty db
  exact init_schema_fixed (init_schema db) (init_schema_settingsExists db) (by omega)

/-- C6: the pool is established with bounds min 1 and max 10 whenever the
process reaches the serving phase, and any exception during `init_db`
(including the `TypeError` from a missing `DB_PORT`) aborts startup: the
process never serves with a broken or absent pool. -/
theorem startup_pool_bounds_or_abort (cfg : Config)
    (connect schemaExec : Except String Unit) (db : DB) :
    (∀ p db2, lifespan_startup cfg connect schemaExec db = .serving p db2 →
      p.min_size = 1 ∧ p.max_size = 10 ∧ p.closed = false ∧
      init_db cfg connect schemaExec db = .ok (p, db2)) ∧
    (∀ e, init_db cfg connect schemaExec db = .error e →
      lifespan_startup cfg connect schemaExec db = .aborted e) ∧
    (cfg.DB_PORT = none →
      ∃ e, lifespan_startup cfg connect schemaExec db = .aborted e) := by
  refine ⟨?_, ?_, ?_⟩
  · intro p db2 hserve
    have hinit := (lifespan_serving_iff cfg connect schemaExec db p db2).1 hserve
    have hshape := init_db_ok_shape cfg connect schemaExec db p db2 hinit
    refine ⟨?_, ?_, ?_, hinit⟩ <;> rw [hshape.1]
  · intro e hinit
    unfold lifespan_startup
    simp [hinit]
  · intro hport
    refine ⟨"TypeError: int() argument must be a string, a bytes-like object or a real number, not NoneType", ?_⟩
    unfold lifespan_startup init_db create_pool pyInt
    simp [hport]

/-- Witness for C6: with every variable set and a reachable database the
process serves with bounds (1, 10); with `DB_PORT` unset it aborts. -/
theorem startup_pool_bounds_or_abort_witness :
    (demoPool.min_size = 1 ∧ demoPool.max_size = 10 ∧ demoPool.closed = false ∧
      init_db demoConfig (.ok ()) (.ok ()) emptyDB = .ok (demoPool, init_schema emptyDB)) ∧
    (∃ e, lifespan_startup demoConfigNoPort (.ok ()) (.ok ()) emptyDB = .aborted e) := by
  constructor
  · exact (startup_pool_bounds_or_abort demoConfig (.ok ()) (.ok ()) emptyDB).1
      demoPool (init_schema emptyDB) (by decide)
  · exact (startup_pool_bounds_or_abort demoConfigNoPort (.ok ()) (.ok ()) emptyDB).2.2 rfl

/-- C7: in both database-touching handlers the pool events of any request
are balanced: every acquisition is matched by a release on every exit
path, successful or exceptional. -/
theorem handlers_release_connections (db : DB) (acq fetch probe : Except String Unit) :
    ((get_user db acq fetch).2.2).count PoolEvent.acquire =
      ((get_user db acq fetch).2.2).count PoolEvent.release ∧
    ((health_check db acq probe).2.2).count PoolEvent.acquire =
      ((health_check db acq probe).2.2).count PoolEvent.release := by
  constructor
  · cases acq with
    | error e => simp [get_user, withAcquire]
    | ok u =>
      cases hb : get_user_body db fetch with
      | error e => simp [get_user, withAcquire, hb]
      | ok res => cases res <;> simp [get_user, withAcquire, hb]
  · cases acq with
    | error e => simp [health_check, withAcquire]
    | ok u =>
      cases probe with
      | error e => simp [health_check, withAcquire]
      | ok v => simp [health_check, withAcquire]

/-- C8: `GET /api/id` always succeeds with the process hostname as the
`id` field, and any two calls in the same process lifetime (where the
hostname is one fixed string) return the same value. -/
theorem container_id_stable (hostname : String) :
    get_container_id hostname = .ok hostname ∧
    get_container_id hostname = get_container_id hostname :=
  ⟨rfl, rfl⟩

/-- C9: the exposed API surface is read-only: dispatching any request on
any registered route, under any driver behaviour, leaves the database
state unchanged (and the only registered routes are the three GETs, none
of which consumes `UserUpdate`). -/
theorem api_read_only (req : Route) (hostname : String) (db : DB)
    (acq q : Except String Unit) :
    (handle req hostname db acq q).2.1 = db :=
  handle_db_unchanged req hostname db acq q

/-- C10: shutdown is safe when startup never completed: `close_db` on an
unset pool handle takes the guarded no-op branch and raises no error,
while on an initialized pool it closes it. -/
theorem close_db_safe_uninitialized :
    close_db none = .ok none ∧
    (∀ p : Pool, close_db (some p) = .ok (some { p with closed := true })) :=
  ⟨rfl, fun _ => rfl⟩

end Webstack
